import Mathlib

/-!
# Verification of the ward-wise MPI / Monsoon-Preparedness scoring engine

Shallow embedding of `backend/calculate_mpi.py` (class `MPICalculator`).
Python floats are modelled as rationals (`ℚ`); the presentational
`round(x, 1)` calls applied when the per-ward record is exported are not
part of the arithmetic pipeline and are omitted.  Optional dictionary
entries (`dict.get(key, default)` and `key in dict` checks) are modelled
with `Option ℚ` fields plus getter functions applying the exact source
defaults.
-/

namespace MPI

/-- Rainfall features dict (`rain_1h`, `rain_3h`, `rain_forecast_3h` are
the fields `calculate_mpi` reads). -/
structure RainfallFeatures where
  rain_1h : ℚ
  rain_3h : ℚ
  rain_forecast_3h : ℚ

/-- Static ward features row (`self.ward_static.loc[ward_id]`), fields read
through `static_feats.get(...)` / `'key' in static_feats`; `none` models an
absent column. -/
structure WardStatic where
  drain_density : Option ℚ
  mean_elevation : Option ℚ
  low_lying_pct : Option ℚ
  road_density : Option ℚ
  building_density : Option ℚ
  urbanization_index : Option ℚ
  flood_vulnerability_index : Option ℚ

/-- Historical ward features row, fields read via `hist_feats.get(...)`. -/
structure WardHistorical where
  hist_flood_freq : Option ℚ
  monsoon_risk_score : Option ℚ

/-- One row of `self.civic_complaints` for a ward that IS in the index;
a ward not in the index (or a missing table) is modelled by `none` at
the use sites. -/
structure CivicEntry where
  sewerage_complaints : ℚ
  drainage_complaints : ℚ

/-- One row of `self.pothole_by_ward` for a ward name that IS in the index. -/
structure PotholeEntry where
  total_reports : ℚ
  large_potholes : ℚ

/-- Source: `static_feats.get('drain_density', 0)` -/
def WardStatic.drainDensityVal (s : WardStatic) : ℚ := s.drain_density.getD 0

/-- Source: `static_feats.get('low_lying_pct', 15)` -/
def WardStatic.lowLyingVal (s : WardStatic) : ℚ := s.low_lying_pct.getD 15

/-- Source: `static_feats.get('mean_elevation', 215)` -/
def WardStatic.meanElevVal (s : WardStatic) : ℚ := s.mean_elevation.getD 215

/-- Source: `hist_feats.get('hist_flood_freq', 0)` -/
def WardHistorical.histFloodFreqVal (h : WardHistorical) : ℚ :=
  h.hist_flood_freq.getD 0

/-- Source: `hist_feats.get('monsoon_risk_score', 0.5)` -/
def WardHistorical.monsoonRiskVal (h : WardHistorical) : ℚ :=
  h.monsoon_risk_score.getD (1/2)

/-- Source: `model_score = model_prob * 40` (component 1, 0-40 points). -/
def model_score (model_prob : ℚ) : ℚ := model_prob * 40

/-- Component 2, rainfall severity (0-20 points):
`rain_total = rain_3h + rain_forecast_3h` then the if/elif ladder
`<5→0, <15→5, <35→10, <65→15, else→20`. -/
def rain_score (rain_3h rain_forecast_3h : ℚ) : ℚ :=
  let rain_total := rain_3h + rain_forecast_3h
  if rain_total < 5 then 0
  else if rain_total < 15 then 5
  else if rain_total < 35 then 10
  else if rain_total < 65 then 15
  else 20

/-- Component 3, historical risk: `min(15, hist_flood_freq * 2.5)`. -/
def hist_score (hist_flood_freq : ℚ) : ℚ := min 15 (hist_flood_freq * (5/2))

/-- Source: `drain_stress = max(0, 10 - drain_density) / 10 * 6` (0-6 points). -/
def drain_stress (drain_density : ℚ) : ℚ := max 0 (10 - drain_density) / 10 * 6

/-- Source: `sewerage_stress = min(4, sewerage_complaints / 15 * (1 + growth_rate))`
when the ward is in the civic-complaints index, else `0`. -/
def sewerage_stress (civic : Option CivicEntry) (growth_rate : ℚ) : ℚ :=
  match civic with
  | none => 0
  | some c => min 4 (c.sewerage_complaints / 15 * (1 + growth_rate))

/-- Source: `drainage_stress = min(3, drainage_complaints / 25)` when the ward is in
the civic-complaints index, else `0`. -/
def drainage_stress (civic : Option CivicEntry) : ℚ :=
  match civic with
  | none => 0
  | some c => min 3 (c.drainage_complaints / 25)

/-- Source: `pothole_stress = min(2, potholes/5 + large_potholes/2)` when the ward
name is in the pothole index, else it stays `0`. -/
def pothole_stress (p : Option PotholeEntry) : ℚ :=
  match p with
  | none => 0
  | some e => min 2 (e.total_reports / 5 + e.large_potholes / 2)

/-- Component 4, infrastructure stress (0-15 points):
`infra_score = drain_stress + sewerage_stress + drainage_stress + pothole_stress`. -/
def infra_score (s : WardStatic) (civic : Option CivicEntry)
    (p : Option PotholeEntry) (growth_rate : ℚ) : ℚ :=
  drain_stress s.drainDensityVal + sewerage_stress civic growth_rate +
    drainage_stress civic + pothole_stress p

/-- The vulnerability base: `flood_vulnerability_index * 10` when that key
exists, else the legacy fallback
`max(0, (220 - mean_elevation)/15*5) + low_lying_pct/30*5`. -/
def vuln_base (s : WardStatic) : ℚ :=
  match s.flood_vulnerability_index with
  | some idx => idx * 10
  | none =>
      max 0 ((220 - s.meanElevVal) / 15 * 5) + s.lowLyingVal / 30 * 5

/-- Source: `urban_penalty`: `urbanization_index * rain_1h / 10 * 2` only when the
`urbanization_index` key exists and `rain_1h > 10`, else `0`. -/
def urban_penalty (s : WardStatic) (rain_1h : ℚ) : ℚ :=
  match s.urbanization_index with
  | none => 0
  | some u => if rain_1h > 10 then u * rain_1h / 10 * 2 else 0

/-- Component 5, vulnerability (0-10 points):
`vuln_score = min(10, vuln_score + urban_penalty)`. -/
def vuln_score (s : WardStatic) (rain_1h : ℚ) : ℚ :=
  min 10 (vuln_base s + urban_penalty s rain_1h)

/-- All per-ward inputs of one `calculate_mpi` loop iteration.  `prob` is
the opaque Predictor output `model_prob`; `growthRate` is
`self.sewerage_growth_rate`. -/
structure MPIInput where
  prob : ℚ
  rain : RainfallFeatures
  st : WardStatic
  hist : WardHistorical
  civic : Option CivicEntry
  potholes : Option PotholeEntry
  growthRate : ℚ

/-- Source: `mpi = model_score + rain_score + hist_score + infra_score + vuln_score`. -/
def mpi_total (i : MPIInput) : ℚ :=
  model_score i.prob + rain_score i.rain.rain_3h i.rain.rain_forecast_3h +
    hist_score i.hist.histFloodFreqVal +
    infra_score i.st i.civic i.potholes i.growthRate +
    vuln_score i.st i.rain.rain_1h

/-- The four risk levels assigned to an MPI total. -/
inductive RiskLevel where
  | low
  | moderate
  | high
  | critical
deriving DecidableEq, Repr

/-- The classification ladder: `<30 Low, <50 Moderate, <70 High, else Critical`. -/
def risk_level (mpi : ℚ) : RiskLevel :=
  if mpi < 30 then .low
  else if mpi < 50 then .moderate
  else if mpi < 70 then .high
  else .critical

/-- Numeric rank of a risk level (used to state monotonicity). -/
def RiskLevel.rank : RiskLevel → ℕ
  | .low => 0
  | .moderate => 1
  | .high => 2
  | .critical => 3

end MPI

namespace Prep

/-- All per-ward inputs of one `calculate_monsoon_preparedness` loop
iteration.  `potholeReports` is `pothole_by_ward.loc[ward_name, 'total_reports']`
when the pothole table exists and has the ward name, else `none` (both the
`pothole_by_ward is None` and the name-missing branch set the penalty to 0). -/
structure PrepInput where
  st : MPI.WardStatic
  hist : MPI.WardHistorical
  civic : Option MPI.CivicEntry
  potholeReports : Option ℚ
  growthRate : ℚ

/-- Source: `drain_capacity = min(30, drain_density * 5)`. -/
def drain_capacity (drain_density : ℚ) : ℚ := min 30 (drain_density * 5)

/-- Source: `complaint_penalty = min(10, drainage_complaints/30 + sewerage_complaints/20)`
when the ward is in the civic-complaints index, else `0`. -/
def complaint_penalty (civic : Option MPI.CivicEntry) : ℚ :=
  match civic with
  | none => 0
  | some c => min 10 (c.drainage_complaints / 30 + c.sewerage_complaints / 20)

/-- Component 1: `infra_capacity = max(0, drain_capacity - complaint_penalty)`. -/
def infra_capacity (i : PrepInput) : ℚ :=
  max 0 (drain_capacity i.st.drainDensityVal - complaint_penalty i.civic)

/-- Source: `flood_resilience = max(0, 25 - hist_flood_freq * 4)`. -/
def flood_resilience (hist_flood_freq : ℚ) : ℚ := max 0 (25 - hist_flood_freq * 4)

/-- Source: `risk_resilience = (1 - monsoon_risk) * 10`. -/
def risk_resilience (monsoon_risk : ℚ) : ℚ := (1 - monsoon_risk) * 10

/-- Component 2: `historical_resilience = flood_resilience + risk_resilience`. -/
def historical_resilience (i : PrepInput) : ℚ :=
  flood_resilience i.hist.histFloodFreqVal + risk_resilience i.hist.monsoonRiskVal

/-- Source: `road_access = min(10, road_density * 2)` when the column exists, else `5`. -/
def road_access (road_density : Option ℚ) : ℚ :=
  match road_density with
  | some rd => min 10 (rd * 2)
  | none => 5

/-- Source: `building_factor = min(10, building_density * 5)` when the column
exists, else `5`. -/
def building_factor (building_density : Option ℚ) : ℚ :=
  match building_density with
  | some bd => min 10 (bd * 5)
  | none => 5

/-- Component 3: `resource_readiness = road_access + building_factor`. -/
def resource_readiness (i : PrepInput) : ℚ :=
  road_access i.st.road_density + building_factor i.st.building_density

/-- Source: `physical_vuln = low_lying_pct/30*8 + max(0, 220 - mean_elevation)/20*7`. -/
def physical_vuln (low_lying_pct mean_elevation : ℚ) : ℚ :=
  low_lying_pct / 30 * 8 + max 0 (220 - mean_elevation) / 20 * 7

/-- Component 4: `vuln_gap = max(0, 15 - (physical_vuln - infra_capacity/3))`. -/
def vuln_gap (i : PrepInput) : ℚ :=
  max 0 (15 - (physical_vuln i.st.lowLyingVal i.st.meanElevVal - infra_capacity i / 3))

/-- Source: `maintenance_penalty = min(5, potholes / 4)` when the pothole table has
the ward's name, else `0`. -/
def maintenance_penalty (potholeReports : Option ℚ) : ℚ :=
  match potholeReports with
  | none => 0
  | some p => min 5 (p / 4)

/-- Component 5: `maintenance_score =
max(0, 10 - maintenance_penalty - sewerage_growth_rate * 3)`. -/
def maintenance_score (i : PrepInput) : ℚ :=
  max 0 (10 - maintenance_penalty i.potholeReports - i.growthRate * 3)

/-- Source: `preparedness = infra_capacity + historical_resilience +
resource_readiness + vuln_gap + maintenance_score`. -/
def preparedness (i : PrepInput) : ℚ :=
  infra_capacity i + historical_resilience i + resource_readiness i +
    vuln_gap i + maintenance_score i

/-- The five keys of the `component_scores` dict, in Python insertion
order: Infrastructure, Resilience, Resources, Vulnerability, Maintenance. -/
inductive Component where
  | infrastructure
  | resilience
  | resources
  | vulnerability
  | maintenance
deriving DecidableEq, Repr

/-- The display name of each component (the dict's string keys). -/
def Component.name : Component → String
  | .infrastructure => "Infrastructure"
  | .resilience => "Resilience"
  | .resources => "Resources"
  | .vulnerability => "Vulnerability"
  | .maintenance => "Maintenance"

/-- Position of a key in the dict's insertion order. -/
def Component.insertionIdx : Component → ℕ
  | .infrastructure => 0
  | .resilience => 1
  | .resources => 2
  | .vulnerability => 3
  | .maintenance => 4

/-- Position of a key in the ascending alphabetical order of the five
names ("Infrastructure" < "Maintenance" < "Resilience" < "Resources" <
"Vulnerability"), the order `pandas.Series.mode` sorts them in. -/
def Component.alphaIdx : Component → ℕ
  | .infrastructure => 0
  | .maintenance => 1
  | .resilience => 2
  | .resources => 3
  | .vulnerability => 4

/-- The value stored under each key of `component_scores`. -/
def componentValue (i : PrepInput) : Component → ℚ
  | .infrastructure => infra_capacity i
  | .resilience => historical_resilience i
  | .resources => resource_readiness i
  | .vulnerability => vuln_gap i
  | .maintenance => maintenance_score i

/-- The `component_scores` dict as an insertion-ordered association list. -/
def componentScores (i : PrepInput) : List (Component × ℚ) :=
  [(.infrastructure, infra_capacity i),
   (.resilience, historical_resilience i),
   (.resources, resource_readiness i),
   (.vulnerability, vuln_gap i),
   (.maintenance, maintenance_score i)]

/-- CPython `min(iterable, key=...)`: scan in order, replace the running
best only on a strictly smaller key, so the first minimum wins ties. -/
def pyMinBy (best : Component × ℚ) : List (Component × ℚ) → Component × ℚ
  | [] => best
  | x :: xs => pyMinBy (if x.2 < best.2 then x else best) xs

/-- Source: `weakest = min(component_scores, key=component_scores.get)`. -/
def weakestComponent (i : PrepInput) : Component :=
  (pyMinBy (.infrastructure, infra_capacity i)
    ((componentScores i).tail)).1

end Prep

namespace Civic

/-- Source: `load_civic_complaints` selection of `self.sewerage_growth_rate`:
when `sewerage_complaints_yearly.csv` exists (here: `some column` with the
yearly `sewerage_complaints` column, oldest year first) the code computes
`(iloc[-1] - iloc[-4]) / iloc[-4]`; when the file is absent it uses the
literal default `0.75`. -/
def sewerage_growth_rate (column : Option (List ℚ)) : ℚ :=
  match column with
  | none => 3/4
  | some ys =>
      let latest := ys.getD (ys.length - 1) 0
      let baseline := ys.getD (ys.length - 4) 0
      (latest - baseline) / baseline

end Civic

namespace Zone

/-- The number of occurrences of the most frequent element, i.e. the count
that `pandas.Series.mode` maximises (0 for the empty list). -/
def maxCount (l : List Prep.Component) : ℕ :=
  (l.map (fun c => l.count c)).foldr max 0

/-- The five component names in ascending `String` order:
"Infrastructure" < "Maintenance" < "Resilience" < "Resources" <
"Vulnerability" (proved as `alphaOrder_names_sorted` below). -/
def alphaOrder : List Prep.Component :=
  [.infrastructure, .maintenance, .resilience, .resources, .vulnerability]

/-- Source: `zone_df['weakest_component'].mode()[0]`: `Series.mode` returns the
values of maximal count sorted ascending (as strings), and `[0]` takes the
first, i.e. the lexicographically smallest value whose count is maximal.
Scanning the five possible values in ascending name order and taking the
first with maximal count computes exactly that. -/
def topWeakness (l : List Prep.Component) : Option Prep.Component :=
  alphaOrder.find? (fun c => l.count c = maxCount l)

/-- Modelled from the spec: "modal `weakest_component` (first-encountered
value wins ties)" — the first value in ward order whose count is maximal.
Stated only to compare against `topWeakness`, the behaviour of the source. -/
def specFirstEncounteredMode (l : List Prep.Component) : Option Prep.Component :=
  l.find? (fun c => l.count c = maxCount l)

/-- One row of the `ward_preparedness` DataFrame passed to
`calculate_zone_preparedness` (only the columns that function reads, plus
the `zone` column it writes; `none` = column not present for this row). -/
structure PrepRow where
  ward_id : String
  preparedness_score : ℚ
  weakest_component : Prep.Component
  zone : Option String
deriving DecidableEq

/-- Source: `''.join(filter(str.isalpha, str(ward_id)))`. -/
def zoneLetters (wardId : String) : String :=
  String.mk (wardId.toList.filter Char.isAlpha)

/-- Source: `f"Zone_{zone_letter}"` when the letters are non-empty (Python string
truthiness), else `"Zone_Unknown"`. -/
def zoneKey (wardId : String) : String :=
  let letters := zoneLetters wardId
  if letters = "" then "Zone_Unknown" else "Zone_" ++ letters

/-- Source: `ward_preparedness['zone'] = ward_preparedness['ward_id'].map(zone_mapping)`:
the in-place write of the `zone` column into the caller's DataFrame. -/
def setZones (rows : List PrepRow) : List PrepRow :=
  rows.map (fun r => { r with zone := some (zoneKey r.ward_id) })

/-- The `zone` cell of a row after the column was written. -/
def rowZone (r : PrepRow) : String := r.zone.getD ""

/-- Ascending `String` order through `toList` (kernel-computable; equal to
`String` `≤` by `String.le_iff_toList_le`). -/
def keyLE (a b : String) : Prop := a.toList ≤ b.toList

instance : DecidableRel keyLE := fun a b =>
  inferInstanceAs (Decidable (a.toList ≤ b.toList))

/-- The group keys of `ward_preparedness.groupby('zone')`: the distinct
zone values, sorted ascending (pandas `groupby` sorts group keys). -/
def zoneKeysSorted (rows : List PrepRow) : List String :=
  List.insertionSort keyLE (rows.map rowZone).dedup

/-- The rows of one `groupby` group, in original row order (pandas
preserves intra-group order). -/
def groupOf (rows : List PrepRow) (z : String) : List PrepRow :=
  rows.filter (fun r => rowZone r == z)

/-- Head-seeded fold for `Series.min()` on a non-empty column. -/
def colMin (l : List ℚ) : ℚ :=
  match l with
  | [] => 0
  | h :: t => t.foldl min h

/-- Head-seeded fold for `Series.max()` on a non-empty column. -/
def colMax (l : List ℚ) : ℚ :=
  match l with
  | [] => 0
  | h :: t => t.foldl max h

/-- One entry of `zone_results` (the columns the claims read; the
presentational `round(..., 1)` on the three score statistics is omitted,
and `avg_historical_resilience` / `avg_infra_capacity` are not modelled
because no claim mentions them). -/
structure ZoneSummary where
  zone : String
  avg_preparedness : ℚ
  min_preparedness : ℚ
  max_preparedness : ℚ
  ward_count : ℕ
  critical_wards : ℕ
  poor_wards : ℕ
  top_weakness : Option Prep.Component
deriving DecidableEq

/-- The dict built for one `groupby` group `g` under key `z`. -/
def zoneSummary (g : List PrepRow) (z : String) : ZoneSummary where
  zone := z
  avg_preparedness := (g.map (fun r => r.preparedness_score)).sum / g.length
  min_preparedness := colMin (g.map (fun r => r.preparedness_score))
  max_preparedness := colMax (g.map (fun r => r.preparedness_score))
  ward_count := g.length
  critical_wards := (g.filter (fun r => r.preparedness_score < 30)).length
  poor_wards := (g.filter (fun r => r.preparedness_score < 45)).length
  top_weakness := topWeakness (g.map (fun r => r.weakest_component))

/-- Source: `sort_values('avg_preparedness')` comparison. -/
def summaryLE (a b : ZoneSummary) : Prop :=
  a.avg_preparedness ≤ b.avg_preparedness

instance : DecidableRel summaryLE := fun a b =>
  inferInstanceAs (Decidable (a.avg_preparedness ≤ b.avg_preparedness))

/-- Source: `calculate_zone_preparedness(ward_preparedness)`: returns the
post-state of the caller's DataFrame (the function writes the `zone`
column into it in place) together with the returned zone DataFrame,
sorted ascending by `avg_preparedness`. -/
def calculate_zone_preparedness (rows : List PrepRow) :
    List PrepRow × List ZoneSummary :=
  let mutated := setZones rows
  let summaries :=
    (zoneKeysSorted mutated).map (fun z => zoneSummary (groupOf mutated z) z)
  (mutated, List.insertionSort summaryLE summaries)

end Zone

namespace Inputs

/-- The end-to-end scenario of spec §8: `drain_density=0, rain_3h=70,
rain_forecast_3h=0, hist_flood_freq=0, mean_elevation=220, low_lying_pct=0,
probability=0.9, no civic data, no flood_vulnerability_index`. -/
def scenario : MPI.MPIInput where
  prob := 9/10
  rain := { rain_1h := 0, rain_3h := 70, rain_forecast_3h := 0 }
  st :=
    { drain_density := some 0
      mean_elevation := some 220
      low_lying_pct := some 0
      road_density := none
      building_density := none
      urbanization_index := none
      flood_vulnerability_index := none }
  hist := { hist_flood_freq := some 0, monsoon_risk_score := none }
  civic := none
  potholes := none
  growthRate := 3/4

/-- A fully-populated valid MPI input used to instantiate the range
theorem. -/
def mpiWitness : MPI.MPIInput where
  prob := 1/2
  rain := { rain_1h := 12, rain_3h := 20, rain_forecast_3h := 10 }
  st :=
    { drain_density := some 3
      mean_elevation := some 210
      low_lying_pct := some 20
      road_density := some 4
      building_density := some 1
      urbanization_index := some (1/2)
      flood_vulnerability_index := some (3/5) }
  hist := { hist_flood_freq := some 4, monsoon_risk_score := some (3/5) }
  civic := some { sewerage_complaints := 30, drainage_complaints := 50 }
  potholes := some { total_reports := 10, large_potholes := 3 }
  growthRate := 3/4

/-- A valid preparedness input on which the score overflows 100: a
well-drained (`drain_density = 6`), never-flooded (`hist_flood_freq = 0`,
`monsoon_risk_score = 0`), high-elevation (`mean_elevation = 220`,
`low_lying_pct = 0`), well-connected (`road_density = 5`,
`building_density = 2`) ward with no civic complaints, no pothole reports
and a sewerage growth rate of 0. -/
def prepOverflow : Prep.PrepInput where
  st :=
    { drain_density := some 6
      mean_elevation := some 220
      low_lying_pct := some 0
      road_density := some 5
      building_density := some 2
      urbanization_index := none
      flood_vulnerability_index := none }
  hist := { hist_flood_freq := some 0, monsoon_risk_score := some 0 }
  civic := none
  potholeReports := none
  growthRate := 0

/-- A preparedness input used to instantiate the weakest-component
theorem (maintenance is the strict minimum there). -/
def prepWitness : Prep.PrepInput where
  st :=
    { drain_density := some 5
      mean_elevation := some 215
      low_lying_pct := some 10
      road_density := some 4
      building_density := some 1
      urbanization_index := none
      flood_vulnerability_index := none }
  hist := { hist_flood_freq := some 2, monsoon_risk_score := some (1/2) }
  civic := none
  potholeReports := some 40
  growthRate := 3/4

/-- Ward A1, whose weakest component is Vulnerability. -/
def rowA1 : Zone.PrepRow where
  ward_id := "A1"
  preparedness_score := 50
  weakest_component := .vulnerability
  zone := none

/-- Ward A2, same zone, whose weakest component is Maintenance; together
with `rowA1` the two weakest-component values tie at one occurrence each. -/
def rowA2 : Zone.PrepRow where
  ward_id := "A2"
  preparedness_score := 60
  weakest_component := .maintenance
  zone := none

/-- A one-ward table (no `zone` column yet) used to instantiate the
zone-mutation theorem. -/
def rowB7 : Zone.PrepRow where
  ward_id := "B7"
  preparedness_score := 55
  weakest_component := .resources
  zone := none

end Inputs

theorem aux_rain_score_nonneg (a b : ℚ) : 0 ≤ MPI.rain_score a b := by
  unfold MPI.rain_score
  dsimp only
  split_ifs <;> norm_num

theorem aux_rain_score_le (a b : ℚ) : MPI.rain_score a b ≤ 20 := by
  unfold MPI.rain_score
  dsimp only
  split_ifs <;> norm_num

/-- C2: the rainfall-severity component is the step function of
`rain_3h + rain_forecast_3h` with lower-inclusive upper bins
(`<5→0, <15→5, <35→10, <65→15, else→20`); in particular the sums
5.0, 15.0, 35.0, 65.0 land in the higher bin and 4.999 gives 0. -/
theorem C2_rainfall_step_function (a b : ℚ) :
    (a + b < 5 → MPI.rain_score a b = 0) ∧
    (5 ≤ a + b → a + b < 15 → MPI.rain_score a b = 5) ∧
    (15 ≤ a + b → a + b < 35 → MPI.rain_score a b = 10) ∧
    (35 ≤ a + b → a + b < 65 → MPI.rain_score a b = 15) ∧
    (65 ≤ a + b → MPI.rain_score a b = 20) ∧
    MPI.rain_score 5 0 = 5 ∧ MPI.rain_score 15 0 = 10 ∧
    MPI.rain_score 35 0 = 15 ∧ MPI.rain_score 65 0 = 20 ∧
    MPI.rain_score (4999/1000) 0 = 0 := by
  refine ⟨?_, ?_, ?_, ?_, ?_, by norm_num [MPI.rain_score],
    by norm_num [MPI.rain_score], by norm_num [MPI.rain_score],
    by norm_num [MPI.rain_score], by norm_num [MPI.rain_score]⟩ <;>
    · intros
      unfold MPI.rain_score
      dsimp only
      split_ifs <;> first | rfl | linarith

/-- Closed instance of the rainfall-bin theorem at a concrete sum in the
second bin. -/
theorem C2_rainfall_step_function_witness : MPI.rain_score 7 0 = 5 :=
  (C2_rainfall_step_function 7 0).2.1 (by norm_num) (by norm_num)

theorem aux_risk_low {t : ℚ} (h : t < 30) : MPI.risk_level t = .low := by
  unfold MPI.risk_level
  rw [if_pos h]

theorem aux_risk_moderate {t : ℚ} (h1 : 30 ≤ t) (h2 : t < 50) :
    MPI.risk_level t = .moderate := by
  unfold MPI.risk_level
  rw [if_neg (not_lt.2 h1), if_pos h2]

theorem aux_risk_high {t : ℚ} (h1 : 50 ≤ t) (h2 : t < 70) :
    MPI.risk_level t = .high := by
  unfold MPI.risk_level
  rw [if_neg (not_lt.2 (by linarith)), if_neg (not_lt.2 h1), if_pos h2]

theorem aux_risk_critical {t : ℚ} (h : 70 ≤ t) :
    MPI.risk_level t = .critical := by
  unfold MPI.risk_level
  rw [if_neg (not_lt.2 (by linarith)), if_neg (not_lt.2 (by linarith)),
    if_neg (not_lt.2 h)]

theorem aux_risk_regions (t : ℚ) :
    t < 30 ∨ (30 ≤ t ∧ t < 50) ∨ (50 ≤ t ∧ t < 70) ∨ 70 ≤ t := by
  rcases lt_or_le t 30 with h | h
  · exact .inl h
  rcases lt_or_le t 50 with g | g
  · exact .inr (.inl ⟨h, g⟩)
  rcases lt_or_le t 70 with k | k
  · exact .inr (.inr (.inl ⟨g, k⟩))
  · exact .inr (.inr (.inr k))

theorem aux_risk_rank_mono {s t : ℚ} (h : s ≤ t) :
    (MPI.risk_level s).rank ≤ (MPI.risk_level t).rank := by
  unfold MPI.risk_level
  split_ifs <;> simp [MPI.RiskLevel.rank] <;> linarith

/-- C5: the risk level has half-open, lower-inclusive boundaries at 30,
50 and 70; its rank is monotone in the total, and from any non-maximal
level the next level reached above is exactly one step up. -/
theorem C5_risk_level_boundaries (t : ℚ) :
    (MPI.risk_level t = .low ↔ t < 30) ∧
    (MPI.risk_level t = .moderate ↔ 30 ≤ t ∧ t < 50) ∧
    (MPI.risk_level t = .high ↔ 50 ≤ t ∧ t < 70) ∧
    (MPI.risk_level t = .critical ↔ 70 ≤ t) ∧
    (∀ s : ℚ, s ≤ t → (MPI.risk_level s).rank ≤ (MPI.risk_level t).rank) ∧
    ((MPI.risk_level t).rank < 3 →
      ∃ u : ℚ, t < u ∧ (MPI.risk_level u).rank = (MPI.risk_level t).rank + 1) := by
  refine ⟨⟨?_, aux_risk_low⟩, ⟨?_, fun h => aux_risk_moderate h.1 h.2⟩,
    ⟨?_, fun h => aux_risk_high h.1 h.2⟩, ⟨?_, aux_risk_critical⟩,
    fun s hs => aux_risk_rank_mono hs, ?_⟩ <;> intro he <;>
    rcases aux_risk_regions t with r | ⟨r1, r2⟩ | ⟨r1, r2⟩ | r
  · exact r
  · rw [aux_risk_moderate r1 r2] at he
    exact absurd he (by simp)
  · rw [aux_risk_high r1 r2] at he
    exact absurd he (by simp)
  · rw [aux_risk_critical r] at he
    exact absurd he (by simp)
  · rw [aux_risk_low r] at he
    exact absurd he (by simp)
  · exact ⟨r1, r2⟩
  · rw [aux_risk_high r1 r2] at he
    exact absurd he (by simp)
  · rw [aux_risk_critical r] at he
    exact absurd he (by simp)
  · rw [aux_risk_low r] at he
    exact absurd he (by simp)
  · rw [aux_risk_moderate r1 r2] at he
    exact absurd he (by simp)
  · exact ⟨r1, r2⟩
  · rw [aux_risk_critical r] at he
    exact absurd he (by simp)
  · rw [aux_risk_low r] at he
    exact absurd he (by simp)
  · rw [aux_risk_moderate r1 r2] at he
    exact absurd he (by simp)
  · rw [aux_risk_high r1 r2] at he
    exact absurd he (by simp)
  · exact r
  · exact ⟨30, by linarith, by
      rw [aux_risk_low r, aux_risk_moderate (by norm_num) (by norm_num)]
      rfl⟩
  · exact ⟨50, by linarith, by
      rw [aux_risk_moderate r1 r2, aux_risk_high (by norm_num) (by norm_num)]
      rfl⟩
  · exact ⟨70, by linarith, by
      rw [aux_risk_high r1 r2, aux_risk_critical (by norm_num)]
      rfl⟩
  · rw [aux_risk_critical r] at he
    exact absurd he (by simp [MPI.RiskLevel.rank])

/-- Closed instance of the boundary theorem: a total of 40 classifies as
Moderate. -/
theorem C5_risk_level_boundaries_witness :
    MPI.risk_level 40 = MPI.RiskLevel.moderate :=
  (C5_risk_level_boundaries 40).2.1.mpr ⟨by norm_num, by norm_num⟩

theorem aux_hist_score_nonneg {f : ℚ} (h : 0 ≤ f) : 0 ≤ MPI.hist_score f :=
  le_min (by norm_num) (by positivity)

theorem aux_hist_score_le (f : ℚ) : MPI.hist_score f ≤ 15 := min_le_left _ _

theorem aux_drain_stress_nonneg (d : ℚ) : 0 ≤ MPI.drain_stress d := by
  unfold MPI.drain_stress
  positivity

theorem aux_drain_stress_le {d : ℚ} (h : 0 ≤ d) : MPI.drain_stress d ≤ 6 := by
  unfold MPI.drain_stress
  have : max 0 (10 - d) ≤ 10 := max_le (by norm_num) (by linarith)
  linarith

theorem aux_sewerage_stress_nonneg {civic : Option MPI.CivicEntry} {gr : ℚ}
    (hgr : 0 ≤ gr)
    (hc : ∀ c, civic = some c → 0 ≤ c.sewerage_complaints) :
    0 ≤ MPI.sewerage_stress civic gr := by
  cases civic with
  | none => simp [MPI.sewerage_stress]
  | some c =>
      have := hc c rfl
      unfold MPI.sewerage_stress
      have : (0:ℚ) ≤ c.sewerage_complaints / 15 * (1 + gr) := by positivity
      exact le_min (by norm_num) this

theorem aux_sewerage_stress_le (civic : Option MPI.CivicEntry) (gr : ℚ) :
    MPI.sewerage_stress civic gr ≤ 4 := by
  cases civic with
  | none => simp [MPI.sewerage_stress]
  | some c => exact min_le_left _ _

theorem aux_drainage_stress_nonneg {civic : Option MPI.CivicEntry}
    (hc : ∀ c, civic = some c → 0 ≤ c.drainage_complaints) :
    0 ≤ MPI.drainage_stress civic := by
  cases civic with
  | none => simp [MPI.drainage_stress]
  | some c =>
      have := hc c rfl
      unfold MPI.drainage_stress
      exact le_min (by norm_num) (by positivity)

theorem aux_drainage_stress_le (civic : Option MPI.CivicEntry) :
    MPI.drainage_stress civic ≤ 3 := by
  cases civic with
  | none => simp [MPI.drainage_stress]
  | some c => exact min_le_left _ _

theorem aux_pothole_stress_nonneg {p : Option MPI.PotholeEntry}
    (hp : ∀ e, p = some e → 0 ≤ e.total_reports ∧ 0 ≤ e.large_potholes) :
    0 ≤ MPI.pothole_stress p := by
  cases p with
  | none => simp [MPI.pothole_stress]
  | some e =>
      obtain ⟨h1, h2⟩ := hp e rfl
      unfold MPI.pothole_stress
      exact le_min (by norm_num) (by positivity)

theorem aux_pothole_stress_le (p : Option MPI.PotholeEntry) :
    MPI.pothole_stress p ≤ 2 := by
  cases p with
  | none => simp [MPI.pothole_stress]
  | some e => exact min_le_left _ _

theorem aux_vuln_base_nonneg {s : MPI.WardStatic}
    (hll : 0 ≤ s.lowLyingVal)
    (hf : ∀ q, s.flood_vulnerability_index = some q → 0 ≤ q) :
    0 ≤ MPI.vuln_base s := by
  unfold MPI.vuln_base
  cases hfv : s.flood_vulnerability_index with
  | some q =>
      have := hf q hfv
      positivity
  | none =>
      have h1 : (0:ℚ) ≤ max 0 ((220 - s.meanElevVal) / 15 * 5) := le_max_left _ _
      have h2 : (0:ℚ) ≤ s.lowLyingVal / 30 * 5 := by positivity
      linarith

theorem aux_urban_penalty_nonneg {s : MPI.WardStatic} {r1 : ℚ}
    (hu : ∀ q, s.urbanization_index = some q → 0 ≤ q) :
    0 ≤ MPI.urban_penalty s r1 := by
  unfold MPI.urban_penalty
  cases hux : s.urbanization_index with
  | none => norm_num
  | some u =>
      have := hu u hux
      split_ifs with hr
      · have : (0:ℚ) < r1 := by linarith
        positivity
      · norm_num

theorem aux_vuln_score_nonneg {s : MPI.WardStatic} {r1 : ℚ}
    (hll : 0 ≤ s.lowLyingVal)
    (hf : ∀ q, s.flood_vulnerability_index = some q → 0 ≤ q)
    (hu : ∀ q, s.urbanization_index = some q → 0 ≤ q) :
    0 ≤ MPI.vuln_score s r1 := by
  unfold MPI.vuln_score
  exact le_min (by norm_num)
    (add_nonneg (aux_vuln_base_nonneg hll hf) (aux_urban_penalty_nonneg hu))

theorem aux_vuln_score_le (s : MPI.WardStatic) (r1 : ℚ) :
    MPI.vuln_score s r1 ≤ 10 := min_le_left _ _

/-- C1: for a model probability in [0,1], a non-negative growth rate and
non-negative required numeric fields, the composite score `mpi` equals the
exact sum of the five components (model, rainfall, historical,
infrastructure stress, vulnerability) and lies in [0, 100]. -/
theorem C1_mpi_total_sum_and_range (i : MPI.MPIInput)
    (hp0 : 0 ≤ i.prob) (hp1 : i.prob ≤ 1)
    (hdd : 0 ≤ i.st.drainDensityVal)
    (hll : 0 ≤ i.st.lowLyingVal)
    (hhf : 0 ≤ i.hist.histFloodFreqVal)
    (hgr : 0 ≤ i.growthRate)
    (hciv : ∀ c, i.civic = some c →
      0 ≤ c.sewerage_complaints ∧ 0 ≤ c.drainage_complaints)
    (hpot : ∀ e, i.potholes = some e →
      0 ≤ e.total_reports ∧ 0 ≤ e.large_potholes)
    (hfvi : ∀ q, i.st.flood_vulnerability_index = some q → 0 ≤ q)
    (hurb : ∀ q, i.st.urbanization_index = some q → 0 ≤ q) :
    MPI.mpi_total i =
      MPI.model_score i.prob +
        MPI.rain_score i.rain.rain_3h i.rain.rain_forecast_3h +
        MPI.hist_score i.hist.histFloodFreqVal +
        MPI.infra_score i.st i.civic i.potholes i.growthRate +
        MPI.vuln_score i.st i.rain.rain_1h ∧
      0 ≤ MPI.mpi_total i ∧ MPI.mpi_total i ≤ 100 := by
  have hm0 : 0 ≤ MPI.model_score i.prob := by
    unfold MPI.model_score
    positivity
  have hm1 : MPI.model_score i.prob ≤ 40 := by
    unfold MPI.model_score
    linarith
  have hr0 := aux_rain_score_nonneg i.rain.rain_3h i.rain.rain_forecast_3h
  have hr1 := aux_rain_score_le i.rain.rain_3h i.rain.rain_forecast_3h
  have hh0 := aux_hist_score_nonneg hhf
  have hh1 := aux_hist_score_le i.hist.histFloodFreqVal
  have hi0 : 0 ≤ MPI.infra_score i.st i.civic i.potholes i.growthRate := by
    unfold MPI.infra_score
    have := aux_drain_stress_nonneg i.st.drainDensityVal
    have := aux_sewerage_stress_nonneg hgr (fun c hc => (hciv c hc).1)
    have := aux_drainage_stress_nonneg (fun c hc => (hciv c hc).2)
    have := aux_pothole_stress_nonneg hpot
    linarith
  have hi1 : MPI.infra_score i.st i.civic i.potholes i.growthRate ≤ 15 := by
    unfold MPI.infra_score
    have := aux_drain_stress_le hdd
    have := aux_sewerage_stress_le i.civic i.growthRate
    have := aux_drainage_stress_le i.civic
    have := aux_pothole_stress_le i.potholes
    linarith
  have hv0 := @aux_vuln_score_nonneg i.st i.rain.rain_1h hll hfvi hurb
  have hv1 := aux_vuln_score_le i.st i.rain.rain_1h
  refine ⟨rfl, ?_, ?_⟩ <;> unfold MPI.mpi_total <;> linarith

/-- Closed instance of the composite-range theorem at a fully-populated
valid input. -/
theorem C1_mpi_total_sum_and_range_witness :
    0 ≤ MPI.mpi_total Inputs.mpiWitness ∧ MPI.mpi_total Inputs.mpiWitness ≤ 100 :=
  (C1_mpi_total_sum_and_range Inputs.mpiWitness
    (by norm_num [Inputs.mpiWitness])
    (by norm_num [Inputs.mpiWitness])
    (by norm_num [Inputs.mpiWitness, MPI.WardStatic.drainDensityVal])
    (by norm_num [Inputs.mpiWitness, MPI.WardStatic.lowLyingVal])
    (by norm_num [Inputs.mpiWitness, MPI.WardHistorical.histFloodFreqVal])
    (by norm_num [Inputs.mpiWitness])
    (by rintro c ⟨rfl⟩; norm_num)
    (by rintro e ⟨rfl⟩; norm_num)
    (by rintro q ⟨rfl⟩; norm_num)
    (by rintro q ⟨rfl⟩; norm_num)).2

/-- C8: on the end-to-end scenario input the five components evaluate to
model=36, rainfall=20, historical=0, infrastructure=6 (drain stress
only), vulnerability=0, the total is 62 and the risk level is High. -/
theorem C8_end_to_end_scenario :
    MPI.model_score Inputs.scenario.prob = 36 ∧
    MPI.rain_score Inputs.scenario.rain.rain_3h
      Inputs.scenario.rain.rain_forecast_3h = 20 ∧
    MPI.hist_score Inputs.scenario.hist.histFloodFreqVal = 0 ∧
    MPI.infra_score Inputs.scenario.st Inputs.scenario.civic
      Inputs.scenario.potholes Inputs.scenario.growthRate = 6 ∧
    MPI.infra_score Inputs.scenario.st Inputs.scenario.civic
      Inputs.scenario.potholes Inputs.scenario.growthRate
      = MPI.drain_stress Inputs.scenario.st.drainDensityVal ∧
    MPI.vuln_score Inputs.scenario.st Inputs.scenario.rain.rain_1h = 0 ∧
    MPI.mpi_total Inputs.scenario = 62 ∧
    MPI.risk_level (MPI.mpi_total Inputs.scenario) = .high := by
  norm_num [MPI.mpi_total, MPI.model_score, MPI.rain_score, MPI.hist_score,
    MPI.infra_score, MPI.drain_stress, MPI.sewerage_stress,
    MPI.drainage_stress, MPI.pothole_stress, MPI.vuln_score, MPI.vuln_base,
    MPI.urban_penalty, MPI.WardStatic.drainDensityVal,
    MPI.WardStatic.lowLyingVal, MPI.WardStatic.meanElevVal,
    MPI.WardHistorical.histFloodFreqVal, Inputs.scenario, MPI.risk_level]

/-- C9: a ward absent from the civic-complaints data and the pothole data
scores without failure: the sewerage, drainage and pothole stress terms
are exactly 0, the infrastructure-stress component reduces to the
drain-stress term computed from the static drain density, and the total
is still the sum of all five components. -/
theorem C9_missing_civic_defaults (st : MPI.WardStatic)
    (hist : MPI.WardHistorical) (rain : MPI.RainfallFeatures) (prob gr : ℚ) :
    MPI.sewerage_stress none gr = 0 ∧
    MPI.drainage_stress none = 0 ∧
    MPI.pothole_stress none = 0 ∧
    MPI.infra_score st none none gr = MPI.drain_stress st.drainDensityVal ∧
    MPI.mpi_total
        { prob := prob, rain := rain, st := st, hist := hist,
          civic := none, potholes := none, growthRate := gr } =
      MPI.model_score prob + MPI.rain_score rain.rain_3h rain.rain_forecast_3h +
        MPI.hist_score hist.histFloodFreqVal +
        MPI.drain_stress st.drainDensityVal +
        MPI.vuln_score st rain.rain_1h := by
  refine ⟨rfl, rfl, rfl, ?_, ?_⟩ <;>
    simp [MPI.infra_score, MPI.sewerage_stress, MPI.drainage_stress,
      MPI.pothole_stress, MPI.mpi_total]

/-- C3 (code bug evidence): on the valid input `Inputs.prepOverflow` the
preparedness total, the sum of its five components, evaluates to 120,
exceeding the documented 0-100 range; the individual components evaluate
to 30, 35, 20, 25 and 10. -/
theorem C3_preparedness_overflows_100 :
    Prep.infra_capacity Inputs.prepOverflow = 30 ∧
    Prep.historical_resilience Inputs.prepOverflow = 35 ∧
    Prep.resource_readiness Inputs.prepOverflow = 20 ∧
    Prep.vuln_gap Inputs.prepOverflow = 25 ∧
    Prep.maintenance_score Inputs.prepOverflow = 10 ∧
    Prep.preparedness Inputs.prepOverflow = 120 ∧
    100 < Prep.preparedness Inputs.prepOverflow := by
  norm_num [Prep.preparedness, Prep.infra_capacity, Prep.drain_capacity,
    Prep.complaint_penalty, Prep.historical_resilience, Prep.flood_resilience,
    Prep.risk_resilience, Prep.resource_readiness, Prep.road_access,
    Prep.building_factor, Prep.vuln_gap, Prep.physical_vuln,
    Prep.maintenance_score, Prep.maintenance_penalty,
    MPI.WardStatic.drainDensityVal, MPI.WardStatic.lowLyingVal,
    MPI.WardStatic.meanElevVal, MPI.WardHistorical.histFloodFreqVal,
    MPI.WardHistorical.monsoonRiskVal, Inputs.prepOverflow]

/-- C4 (counterexample): with no external sewerage data the engine's
growth rate is 0.75, not 0, and with data present the engine computes the
rate itself: the yearly series 100,100,100,100,100,100,150 yields 0.5. -/
theorem C4_growth_rate_counterexample :
    Civic.sewerage_growth_rate none = 3/4 ∧
    Civic.sewerage_growth_rate none ≠ 0 ∧
    Civic.sewerage_growth_rate (some [100, 100, 100, 100, 100, 100, 150])
      = 1/2 := by
  norm_num [Civic.sewerage_growth_rate]

/-- C4 (amended): when the yearly sewerage-complaints file is absent the
engine defaults the growth rate to 0.75, and when it is present the
engine computes the rate itself as (last value − 4th-from-last value) /
4th-from-last value (for the 2016-2022 series: (2022 − 2019) / 2019). -/
theorem C4_growth_rate_amended (a b c d e f g : ℚ) :
    Civic.sewerage_growth_rate none = 3/4 ∧
    Civic.sewerage_growth_rate (some [a, b, c, d, e, f, g]) = (g - d) / d := by
  norm_num [Civic.sewerage_growth_rate, List.getD]

/-- C10: `calculate_zone_preparedness` returns zone summaries AND writes a
`zone` value into every record of the caller's table, so a table that
lacked the `zone` column is not left unchanged. -/
theorem C10_zone_mutation (rows : List Zone.PrepRow) (r : Zone.PrepRow)
    (hr : r ∈ rows) (hz : r.zone = none) :
    (Zone.calculate_zone_preparedness rows).1 = Zone.setZones rows ∧
    (Zone.calculate_zone_preparedness rows).1.map Zone.PrepRow.zone
      = rows.map (fun x => some (Zone.zoneKey x.ward_id)) ∧
    (Zone.calculate_zone_preparedness rows).1 ≠ rows := by
  have hmap : (Zone.calculate_zone_preparedness rows).1.map Zone.PrepRow.zone
      = rows.map (fun x => some (Zone.zoneKey x.ward_id)) := by
    simp [Zone.calculate_zone_preparedness, Zone.setZones, List.map_map,
      Function.comp]
  refine ⟨rfl, hmap, fun heq => ?_⟩
  rw [heq] at hmap
  have hmem : (none : Option String) ∈ rows.map Zone.PrepRow.zone := by
    rw [← hz]
    exact List.mem_map_of_mem _ hr
  rw [hmap] at hmem
  obtain ⟨x, -, hx⟩ := List.mem_map.1 hmem
  exact Option.noConfusion hx

/-- Closed instance of the mutation theorem: a one-row table without a
zone value is changed by zone aggregation. -/
theorem C10_zone_mutation_witness :
    (Zone.calculate_zone_preparedness [Inputs.rowB7]).1 ≠ [Inputs.rowB7] :=
  (C10_zone_mutation [Inputs.rowB7] Inputs.rowB7 (by simp) rfl).2.2

/-- C6: the weakest component is a minimum-valued component, and every
component strictly earlier in the dict's insertion order (Infrastructure,
Resilience, Resources, Vulnerability, Maintenance) has a strictly larger
value, i.e. the earliest minimum wins ties. -/
theorem C6_weakest_component_min (i : Prep.PrepInput) :
    (∀ c, Prep.componentValue i (Prep.weakestComponent i)
      ≤ Prep.componentValue i c) ∧
    (∀ c, c.insertionIdx < (Prep.weakestComponent i).insertionIdx →
      Prep.componentValue i (Prep.weakestComponent i) < Prep.componentValue i c) := by
  unfold Prep.weakestComponent Prep.componentScores
  simp only [List.tail_cons, Prep.pyMinBy]
  dsimp only
  split_ifs <;>
    refine ⟨fun c => ?_, fun c hc => ?_⟩ <;> cases c <;>
    simp_all [Prep.componentValue, Prep.Component.insertionIdx] <;> linarith

/-- Closed instance of the weakest-component theorem: on `prepWitness`
the chosen component's value is at most the maintenance value. -/
theorem C6_weakest_component_min_witness :
    Prep.componentValue Inputs.prepWitness
        (Prep.weakestComponent Inputs.prepWitness)
      ≤ Prep.componentValue Inputs.prepWitness Prep.Component.maintenance :=
  (C6_weakest_component_min Inputs.prepWitness).1 Prep.Component.maintenance

theorem aux_mem_le_foldr_max {x : ℕ} {ns : List ℕ} (h : x ∈ ns) :
    x ≤ ns.foldr max 0 := by
  induction ns with
  | nil => cases h
  | cons a t ih =>
      rcases List.mem_cons.1 h with rfl | ht
      · exact le_max_left _ _
      · exact le_trans (ih ht) (le_max_right _ _)

theorem aux_foldr_max_attained (ns : List ℕ) (h : ns ≠ []) :
    ns.foldr max 0 ∈ ns ∨ ns.foldr max 0 = 0 := by
  induction ns with
  | nil => exact absurd rfl h
  | cons a t ih =>
      simp only [List.foldr_cons]
      rcases le_total (t.foldr max 0) a with hle | hle
      · rw [max_eq_left hle]
        exact .inl (List.mem_cons_self _ _)
      · rw [max_eq_right hle]
        by_cases ht : t = []
        · subst ht
          exact .inr rfl
        · rcases ih ht with hm | hz
          · exact .inl (List.mem_cons_of_mem _ hm)
          · exact .inr hz

theorem aux_one_le_maxCount (l : List Prep.Component) (h : l ≠ []) :
    1 ≤ Zone.maxCount l := by
  rcases l with - | ⟨x, t⟩
  · exact absurd rfl h
  · have h1 : (x :: t).count x ≤ Zone.maxCount (x :: t) :=
      aux_mem_le_foldr_max (List.mem_map_of_mem _ (List.mem_cons_self x t))
    have h2 : 1 ≤ (x :: t).count x := by
      rw [List.count_cons_self]
      omega
    omega

theorem aux_maxCount_attained (l : List Prep.Component) (h : l ≠ []) :
    ∃ c, c ∈ l ∧ l.count c = Zone.maxCount l := by
  have hmapne : l.map (fun c => l.count c) ≠ [] := by
    simpa using h
  rcases aux_foldr_max_attained _ hmapne with hm | hz
  · obtain ⟨c, hcl, hceq⟩ := List.mem_map.1 hm
    exact ⟨c, hcl, hceq⟩
  · exfalso
    have h1 := aux_one_le_maxCount l h
    have hz2 : Zone.maxCount l = 0 := hz
    omega

theorem aux_name_le_of_alphaIdx (c d : Prep.Component)
    (h : c.alphaIdx ≤ d.alphaIdx) : c.name ≤ d.name := by
  cases c <;> cases d <;>
    first
      | exact le_refl _
      | (rw [String.le_iff_toList_le]; decide)
      | (exact absurd h (by decide))

theorem aux_mem_of_count_eq_maxCount {l : List Prep.Component}
    {c : Prep.Component} (hne : l ≠ []) (hc : l.count c = Zone.maxCount l) :
    c ∈ l := by
  have h1 : 0 < l.count c := by
    rw [hc]
    exact lt_of_lt_of_le Nat.zero_lt_one (aux_one_le_maxCount l hne)
  exact List.count_pos_iff.1 h1

/-- C7 (counterexample): in a zone whose wards (in ward order) have
weakest components Vulnerability then Maintenance, the two values tie at
one occurrence each; the first-encountered value is Vulnerability, but
the zone summary reports Maintenance, the alphabetically smaller name. -/
theorem C7_top_weakness_counterexample :
    (Zone.groupOf (Zone.setZones [Inputs.rowA1, Inputs.rowA2]) "Zone_A").map
        (fun r => r.weakest_component)
      = [Prep.Component.vulnerability, Prep.Component.maintenance] ∧
    (Zone.calculate_zone_preparedness [Inputs.rowA1, Inputs.rowA2]).2.map
        (fun s => s.top_weakness) = [some Prep.Component.maintenance] ∧
    Zone.specFirstEncounteredMode
        [Prep.Component.vulnerability, Prep.Component.maintenance]
      = some Prep.Component.vulnerability ∧
    some Prep.Component.maintenance ≠ some Prep.Component.vulnerability := by
  refine ⟨by decide, by decide, by decide, by decide⟩

/-- C7 (amended): for every non-empty list of per-ward weakest components
(in ward order within a zone), the reported top weakness is a value of
maximal count, and among all maximal-count values its name is the
lexicographically smallest — ties are broken by ascending name order, not
by first encounter. -/
theorem C7_top_weakness_amended (l : List Prep.Component) (hne : l ≠ []) :
    ∃ c, Zone.topWeakness l = some c ∧ c ∈ l ∧
      l.count c = Zone.maxCount l ∧
      ∀ d ∈ l, l.count d = Zone.maxCount l → c.name ≤ d.name := by
  obtain ⟨c0, hc0l, hc0⟩ := aux_maxCount_attained l hne
  by_cases h1 : l.count .infrastructure = Zone.maxCount l
  · refine ⟨.infrastructure, ?_, aux_mem_of_count_eq_maxCount hne h1, h1, ?_⟩
    · unfold Zone.topWeakness Zone.alphaOrder
      exact List.find?_cons_of_pos _ (by simpa using h1)
    · intro d _ _
      exact aux_name_le_of_alphaIdx _ _ (Nat.zero_le _)
  by_cases h2 : l.count .maintenance = Zone.maxCount l
  · refine ⟨.maintenance, ?_, aux_mem_of_count_eq_maxCount hne h2, h2, ?_⟩
    · unfold Zone.topWeakness Zone.alphaOrder
      rw [List.find?_cons_of_neg _ (by simpa using h1),
        List.find?_cons_of_pos _ (by simpa using h2)]
    · intro d _ hd
      refine aux_name_le_of_alphaIdx _ _ ?_
      cases d with
      | infrastructure => exact absurd hd h1
      | _ => simp [Prep.Component.alphaIdx]
  by_cases h3 : l.count .resilience = Zone.maxCount l
  · refine ⟨.resilience, ?_, aux_mem_of_count_eq_maxCount hne h3, h3, ?_⟩
    · unfold Zone.topWeakness Zone.alphaOrder
      rw [List.find?_cons_of_neg _ (by simpa using h1),
        List.find?_cons_of_neg _ (by simpa using h2),
        List.find?_cons_of_pos _ (by simpa using h3)]
    · intro d _ hd
      refine aux_name_le_of_alphaIdx _ _ ?_
      cases d with
      | infrastructure => exact absurd hd h1
      | maintenance => exact absurd hd h2
      | _ => simp [Prep.Component.alphaIdx]
  by_cases h4 : l.count .resources = Zone.maxCount l
  · refine ⟨.resources, ?_, aux_mem_of_count_eq_maxCount hne h4, h4, ?_⟩
    · unfold Zone.topWeakness Zone.alphaOrder
      rw [List.find?_cons_of_neg _ (by simpa using h1),
        List.find?_cons_of_neg _ (by simpa using h2),
        List.find?_cons_of_neg _ (by simpa using h3),
        List.find?_cons_of_pos _ (by simpa using h4)]
    · intro d _ hd
      refine aux_name_le_of_alphaIdx _ _ ?_
      cases d with
      | infrastructure => exact absurd hd h1
      | maintenance => exact absurd hd h2
      | resilience => exact absurd hd h3
      | _ => simp [Prep.Component.alphaIdx]
  by_cases h5 : l.count .vulnerability = Zone.maxCount l
  · refine ⟨.vulnerability, ?_, aux_mem_of_count_eq_maxCount hne h5, h5, ?_⟩
    · unfold Zone.topWeakness Zone.alphaOrder
      rw [List.find?_cons_of_neg _ (by simpa using h1),
        List.find?_cons_of_neg _ (by simpa using h2),
        List.find?_cons_of_neg _ (by simpa using h3),
        List.find?_cons_of_neg _ (by simpa using h4),
        List.find?_cons_of_pos _ (by simpa using h5)]
    · intro d _ hd
      cases d with
      | infrastructure => exact absurd hd h1
      | maintenance => exact absurd hd h2
      | resilience => exact absurd hd h3
      | resources => exact absurd hd h4
      | vulnerability => exact le_refl _
  · exfalso
    cases c0 with
    | infrastructure => exact h1 hc0
    | maintenance => exact h2 hc0
    | resilience => exact h3 hc0
    | resources => exact h4 hc0
    | vulnerability => exact h5 hc0

/-- Closed instance of the amended top-weakness theorem: the tie list of
the counterexample has a reported top weakness. -/
theorem C7_top_weakness_amended_witness :
    (Zone.topWeakness
        [Prep.Component.vulnerability, Prep.Component.maintenance]).isSome
      = true := by
  obtain ⟨c, hc, -⟩ := C7_top_weakness_amended
    [Prep.Component.vulnerability, Prep.Component.maintenance] (by simp)
  rw [hc]
  rfl

/-- Closed instance of the amended growth-rate theorem on the 2016-2022
series 100,110,120,130,140,145,150. -/
theorem C4_growth_rate_amended_witness :
    Civic.sewerage_growth_rate (some [100, 110, 120, 130, 140, 145, 150])
      = (150 - 130) / 130 :=
  (C4_growth_rate_amended 100 110 120 130 140 145 150).2

/-- Closed instance of the missing-civic-data theorem on the scenario
ward. -/
theorem C9_missing_civic_defaults_witness :
    MPI.infra_score Inputs.scenario.st none none (3/4)
      = MPI.drain_stress Inputs.scenario.st.drainDensityVal :=
  (C9_missing_civic_defaults Inputs.scenario.st Inputs.scenario.hist
    Inputs.scenario.rain (9/10) (3/4)).2.2.2.1
